import Mathlib

/-!
Verification of the LEAF DSS feasibility scoring engine.

This file gives a shallow embedding of the feasibility engine
(`feasibility.py`) and of the error-handling skeleton of the data loaders
(`data_utils.py`), and proves the specification's claims about them.

Modelling conventions:
* A dataframe cell is `CellVal`: `num q` is any value whose numeric coercion
  (`pd.to_numeric(..., errors='coerce')`) is the rational `q`; `str s` is a
  non-numeric string (coerces to NaN); `null` is a missing value (NaN).
* A dataframe (`GDF`) is a list of column names plus a list of rows, each row
  an association list from column name to cell.  A column present in `cols`
  but absent from a row's association list is a NaN cell of that column.
* Missing values / NaN results are `Option.none`; machine floats are modelled
  as rationals, with `Option ℚ` bounds where `none` stands for ±infinity.
* Python exceptions are `Except.error`; `None` returns are `Option.none`.
-/

inductive CellVal where
  | num (q : ℚ)
  | str (s : String)
  | null
deriving DecidableEq

abbrev Row := List (String × CellVal)

/-- Numeric coercion of the cell of column `c` in row `r`
(`pd.to_numeric(gdf[c], errors='coerce')` at this row):
`some q` for a numeric value, `none` for NaN / non-numeric / absent cell. -/
def Row.coerceNum (r : Row) (c : String) : Option ℚ :=
  match r.lookup c with
  | some (CellVal.num q) => some q
  | _ => none

structure GDF where
  cols : List String
  rows : List Row
deriving DecidableEq

/-- Lower-bound test: `none` is `float('-inf')`. -/
def lowOk (lo : Option ℚ) (v : ℚ) : Bool :=
  match lo with
  | none => true
  | some m => decide (m ≤ v)

/-- Upper-bound test: `none` is `float('inf')`. -/
def highOk (hi : Option ℚ) (v : ℚ) : Bool :=
  match hi with
  | none => true
  | some m => decide (v ≤ m)

/-- `min_val <= v <= max_val`, bounds inclusive. -/
def inRange (lo hi : Option ℚ) (v : ℚ) : Bool :=
  lowOk lo v && highOk hi v

/-- `calculate_criteria_match(gdf, column, min_val, max_val)`:
1 if within range, 0 if outside, NaN if no data; a column absent from the
table yields NaN for every row. -/
def calculate_criteria_match (gdf : GDF) (column : String)
    (min_val max_val : Option ℚ) : List (Option ℚ) :=
  if column ∈ gdf.cols then
    gdf.rows.map (fun r =>
      (r.coerceNum column).map (fun v =>
        if inRange min_val max_val v then (1 : ℚ) else 0))
  else
    gdf.rows.map (fun _ => none)

/-- A request criterion dict.  Every field is optional, mirroring
`c.get(...)` access in the source; an inner `none` in a bound is an explicit
null value (`pd.isna` holds of it). -/
structure Criterion where
  column : Option String := none
  field : Option String := none
  min_val : Option (Option ℚ) := none
  max_val : Option (Option ℚ) := none
  range_min : Option (Option ℚ) := none
  range_max : Option (Option ℚ) := none
  weight : Option ℚ := none
deriving DecidableEq

/-- `column = c.get('column') or c.get('field')` (Python `or`: an empty or
missing `'column'` value falls through to `'field'`). -/
def Criterion.effColumn (c : Criterion) : Option String :=
  match c.column with
  | some s => if s = "" then c.field else some s
  | none => c.field

/-- `min_val = c.get('min_val', c.get('range_min', float('-inf')))` followed
by `if pd.isna(min_val): min_val = float('-inf')`; `none` is `-inf`. -/
def Criterion.effMin (c : Criterion) : Option ℚ :=
  c.min_val.getD (c.range_min.getD none)

/-- `max_val = c.get('max_val', c.get('range_max', float('inf')))` followed
by `if pd.isna(max_val): max_val = float('inf')`; `none` is `+inf`. -/
def Criterion.effMax (c : Criterion) : Option ℚ :=
  c.max_val.getD (c.range_max.getD none)

/-- `weight = c.get('weight', 1)`. -/
def Criterion.effWeight (c : Criterion) : ℚ :=
  c.weight.getD 1

/-- One iteration of the criteria loop in `calculate_feasibility`: add the
criterion's weighted match and weight to the per-row accumulators
`(weighted_matches, weighted_applicable)` on the rows where its match series
is not NaN; a criterion with no column is skipped (`continue`). -/
def feasStep (gdf : GDF) (acc : List (ℚ × ℚ)) (c : Criterion) : List (ℚ × ℚ) :=
  match c.effColumn with
  | none => acc
  | some column =>
      List.zipWith (fun p mv =>
          match mv with
          | none => p
          | some m => (p.1 + m * c.effWeight, p.2 + c.effWeight))
        acc (calculate_criteria_match gdf column c.effMin c.effMax)

/-- `calculate_feasibility(gdf, criteria, logic)`: weighted percentage of
applicable criteria matched, per row; NaN where no criterion is applicable
(`weighted_applicable > 0` fails) or when the criteria list is empty.
The `logic` parameter is accepted but never read, exactly as in the source. -/
def calculate_feasibility (gdf : GDF) (criteria : List Criterion)
    (logic : String) : List (Option ℚ) :=
  if criteria.isEmpty then
    gdf.rows.map (fun _ => none)
  else
    (criteria.foldl (feasStep gdf)
        (gdf.rows.map (fun _ => ((0 : ℚ), (0 : ℚ))))).map
      (fun p => if p.2 > 0 then some (p.1 / p.2 * 100) else none)

/-- `classify_feasibility(value)`: category key and display label. -/
def classify_feasibility (value : Option ℚ) : String × String :=
  match value with
  | none => ("no_data", "No Data")
  | some v =>
      if v ≥ 100 then ("very_high", "100%")
      else if v ≥ 75 then ("high", "75-100%")
      else if v ≥ 50 then ("moderate_high", "50-75%")
      else if v ≥ 25 then ("moderate", "25-50%")
      else if v ≥ 1 then ("low", "1-25%")
      else ("very_low", "0%")

/-- `FEASIBILITY_COLORS` from `config.py`. -/
def FEASIBILITY_COLORS : List (String × String) :=
  [("very_high", "#1b5e20"),
   ("high", "#81c784"),
   ("moderate_high", "#c5e1a5"),
   ("moderate", "#ffd700"),
   ("low", "#ff8c00"),
   ("very_low", "#ff0000"),
   ("no_data", "#E0E0E0")]

/-- `get_feasibility_color(value)`. -/
def get_feasibility_color (value : Option ℚ) : String :=
  (FEASIBILITY_COLORS.lookup (classify_feasibility value).1).getD
    ((FEASIBILITY_COLORS.lookup "no_data").getD "")

/-- A row of a scored table: the original cells plus the four derived
columns `add_feasibility_to_gdf` attaches. -/
structure SRow where
  cells : Row
  feasibility : Option ℚ
  feasibility_class : String
  feasibility_label : String
  feasibility_color : String
deriving DecidableEq

/-- A unit table after scoring (`add_feasibility_to_gdf`'s result shape). -/
structure ScoredGDF where
  cols : List String
  rows : List SRow
deriving DecidableEq

/-- `add_feasibility_to_gdf(gdf, criteria, logic)`: a copy of the table with
`feasibility`, `feasibility_class`, `feasibility_label`, `feasibility_color`
columns attached. -/
def add_feasibility_to_gdf (gdf : GDF) (criteria : List Criterion)
    (logic : String) : ScoredGDF :=
  let feas := calculate_feasibility gdf criteria logic
  { cols := gdf.cols ++
      ["feasibility", "feasibility_class", "feasibility_label", "feasibility_color"],
    rows := (gdf.rows.zip feas).map (fun rf =>
      { cells := rf.1,
        feasibility := rf.2,
        feasibility_class := (classify_feasibility rf.2).1,
        feasibility_label := (classify_feasibility rf.2).2,
        feasibility_color := get_feasibility_color rf.2 }) }

/-- The `all_labels` list of `get_feasibility_distribution`. -/
def all_labels : List String :=
  ["100%", "75-100%", "50-75%", "25-50%", "1-25%", "0%", "No Data"]

/-- `get_feasibility_distribution(gdf)` on a scored table (which always has
the `feasibility_label` column, so the early `{}` return is unreachable):
`value_counts().to_dict()` — the label→count mapping over the labels that
occur, in first-occurrence key order (a dict is a key set with a mapping, so
key order is irrelevant) — then every missing label of `all_labels` is added
with count 0. -/
def get_feasibility_distribution (g : ScoredGDF) : List (String × Nat) :=
  let lbls := g.rows.map (fun r => r.feasibility_label)
  let present := lbls.dedup
  (present ++ all_labels.filter (fun l => !present.contains l)).map
    (fun l => (l, lbls.count l))

/-- Insertion into a sorted list, ascending. -/
def insertSorted (x : ℚ) : List ℚ → List ℚ
  | [] => [x]
  | y :: ys => if x ≤ y then x :: y :: ys else y :: insertSorted x ys

/-- Ascending sort (insertion sort). -/
def sortQ (l : List ℚ) : List ℚ :=
  l.foldr insertSorted []

/-- `Series.mean()` of a nonempty numeric series. -/
def seriesMean (l : List ℚ) : ℚ :=
  l.sum / l.length

/-- `Series.median()` of a nonempty numeric series: middle element of the
sorted values, or the average of the two middle elements. -/
def seriesMedian (l : List ℚ) : ℚ :=
  let s := sortQ l
  if l.length % 2 = 1 then s.getD (l.length / 2) 0
  else (s.getD (l.length / 2 - 1) 0 + s.getD (l.length / 2) 0) / 2

/-- `Series.min()` of a nonempty numeric series. -/
def seriesMin (l : List ℚ) : ℚ :=
  match l with
  | [] => 0
  | x :: xs => xs.foldl min x

/-- `Series.max()` of a nonempty numeric series. -/
def seriesMax (l : List ℚ) : ℚ :=
  match l with
  | [] => 0
  | x :: xs => xs.foldl max x

/-- `get_feasibility_stats(gdf)` on a scored table (which always has the
`feasibility` column, so the early `{}` return is unreachable).  `valid` is
the series of defined scores (`dropna`).  All values are numeric, so the
dict is modelled as an association list `String × ℚ` in insertion order. -/
def get_feasibility_stats (g : ScoredGDF) : List (String × ℚ) :=
  let valid := g.rows.filterMap (fun r => r.feasibility)
  [("total_blocks", (g.rows.length : ℚ)),
   ("blocks_with_data", (valid.length : ℚ)),
   ("blocks_no_data", (g.rows.length : ℚ) - (valid.length : ℚ)),
   ("mean", if valid.length > 0 then seriesMean valid else 0),
   ("median", if valid.length > 0 then seriesMedian valid else 0),
   ("min", if valid.length > 0 then seriesMin valid else 0),
   ("max", if valid.length > 0 then seriesMax valid else 100),
   ("high_feasibility", ((valid.filter (fun v => v ≥ 75)).length : ℚ)),
   ("low_feasibility", ((valid.filter (fun v => v < 25)).length : ℚ))]

/-- A value of the statistics dict: a number, or the nested distribution. -/
inductive StatVal where
  | num (q : ℚ)
  | dist (d : List (String × Nat))
deriving DecidableEq

/-- `{**stats, 'distribution': distribution}`: the statistics object of
`calculate_and_get_geojson`. -/
def mkStatistics (g : ScoredGDF) : List (String × StatVal) :=
  (get_feasibility_stats g).map (fun p => (p.1, StatVal.num p.2)) ++
    [("distribution", StatVal.dist (get_feasibility_distribution g))]

/-- The result of `calculate_and_get_geojson`: the full scored collection
(its GeoJSON serialization is marshaling, out of scope) and the statistics
object. -/
structure GeoResult where
  geojson : ScoredGDF
  statistics : List (String × StatVal)
deriving DecidableEq

/-- `gdf_with_feas['Dist_Name'] == district` at one row: pandas string
equality; NaN or a numeric cell never equals the district string. -/
def rowMatchesName (r : Row) (district : String) : Bool :=
  match r.lookup "Dist_Name" with
  | some (CellVal.str s) => s = district
  | _ => false

/-- `astype(str)` of one cell (NaN stringifies to `"nan"`). -/
def cellToStr : CellVal → String
  | CellVal.num q => toString q
  | CellVal.str s => s
  | CellVal.null => "nan"

/-- `gdf_with_feas['DISTRICT_I'].astype(str) == str(district)` at one row. -/
def rowMatchesId (r : Row) (district : String) : Bool :=
  match r.lookup "DISTRICT_I" with
  | some v => cellToStr v = district
  | none => false

/-- Python truthiness of the optional `district` argument. -/
def truthyDistrict : Option String → Bool
  | none => false
  | some s => !s.isEmpty

/-- Boolean-mask row selection on a scored table. -/
def ScoredGDF.filterRows (g : ScoredGDF) (p : Row → Bool) : ScoredGDF :=
  { g with rows := g.rows.filter (fun r => p r.cells) }

/-- The "filter by district for statistics" block of
`calculate_and_get_geojson`: by `Dist_Name` when that column exists, falling
back to `DISTRICT_I` string equality when the name matches no row; without a
`Dist_Name` column the source filters by `DISTRICT_I` directly (its no-match
fallback refilters by `DISTRICT_I` and is the identical row set, so the two
source steps are one filter here), and raises a `KeyError` when that column
is absent too. -/
def districtFilter (g : ScoredGDF) (district : Option String) :
    Except String ScoredGDF :=
  if truthyDistrict district then
    let d := district.getD ""
    if "Dist_Name" ∈ g.cols then
      let byName := g.filterRows (fun r => rowMatchesName r d)
      if byName.rows.length = 0 ∧ "DISTRICT_I" ∈ g.cols then
        Except.ok (g.filterRows (fun r => rowMatchesId r d))
      else
        Except.ok byName
    else if "DISTRICT_I" ∈ g.cols then
      Except.ok (g.filterRows (fun r => rowMatchesId r d))
    else
      Except.error "KeyError: DISTRICT_I"
  else
    Except.ok g

/-- `calculate_and_get_geojson(gdf, criteria, logic, district)`: scores every
unit, computes statistics on the district-filtered rows, and returns the full
scored collection together with the statistics object.  The geojson component
is always the full scored table. -/
def calculate_and_get_geojson (gdf : GDF) (criteria : List Criterion)
    (logic : String) (district : Option String) : Except String GeoResult :=
  let gdf_with_feas := add_feasibility_to_gdf gdf criteria logic
  match districtFilter gdf_with_feas district with
  | Except.error e => Except.error e
  | Except.ok gdf_for_stats =>
      Except.ok { geojson := gdf_with_feas, statistics := mkStatistics gdf_for_stats }

/-! ## Data loaders (`data_utils.py`)

Only the file-existence error handling is in scope (claim C9); reading,
reprojecting, simplifying and joining the actual geodata are effects of
external libraries, abstracted as the environment's already-processed
contents. -/

/-- The filesystem facts and file contents the loaders depend on:
whether `4DSS_VAR_2.0.shp`, `grampanchayat.shp` and `Tinsukia_GP_data.xlsx`
exist, and the (processed) tables they hold when they do. -/
structure DataEnv where
  shapefile_exists : Bool
  gp_shapefile_exists : Bool
  gp_data_exists : Bool
  shapefile_content : GDF
  gp_shapefile_content : GDF
  gp_data_content : GDF
deriving DecidableEq

/-- `load_shapefile()`: raises `FileNotFoundError` when the required block
shapefile is missing, otherwise returns the loaded table. -/
def load_shapefile (env : DataEnv) : Except String GDF :=
  if env.shapefile_exists then Except.ok env.shapefile_content
  else Except.error "Shapefile not found"

/-- `load_gp_data()`: returns `None` when the optional GP indicator Excel
file is missing, otherwise the loaded table. -/
def load_gp_data (env : DataEnv) : Option GDF :=
  if env.gp_data_exists then some env.gp_data_content else none

/-- `load_gp_shapefile()`: returns `None` when the optional GP shapefile is
missing, otherwise the loaded (joined) table. -/
def load_gp_shapefile (env : DataEnv) : Option GDF :=
  if env.gp_shapefile_exists then some env.gp_shapefile_content else none

/-! ## Row-level characterization of the scoring loop

`calculate_feasibility` is written over whole columns (pandas Series); the
lemmas below re-express it row by row so that the claims, which speak of one
unit at a time, can be proved. -/

/-- The match of one criterion range at one row: what one entry of
`calculate_criteria_match`'s result series is. -/
def matchCell (cols : List String) (r : Row) (col : String)
    (lo hi : Option ℚ) : Option ℚ :=
  if col ∈ cols then
    (r.coerceNum col).map (fun v => if inRange lo hi v then (1 : ℚ) else 0)
  else none

/-- One criterion is applicable to one row: it names a column that exists in
the table and whose value at this row coerces to a number. -/
def critApplicable (cols : List String) (r : Row) (c : Criterion) : Bool :=
  match c.effColumn with
  | none => false
  | some col => decide (col ∈ cols) && (r.coerceNum col).isSome

/-- The 0/1 match value of one applicable criterion at one row. -/
def critMatchVal (r : Row) (c : Criterion) : ℚ :=
  match c.effColumn with
  | none => 0
  | some col =>
      match r.coerceNum col with
      | some v => if inRange c.effMin c.effMax v then 1 else 0
      | none => 0

/-- `Σ weight·match` over the criteria applicable to one row. -/
def rowMatchSum (cols : List String) (r : Row) (cs : List Criterion) : ℚ :=
  (cs.map (fun c =>
    if critApplicable cols r c then critMatchVal r c * c.effWeight else 0)).sum

/-- `Σ weight` over the criteria applicable to one row. -/
def rowWeightSum (cols : List String) (r : Row) (cs : List Criterion) : ℚ :=
  (cs.map (fun c => if critApplicable cols r c then c.effWeight else 0)).sum

/-- The per-row effect of one iteration of the criteria loop. -/
def rowStep (cols : List String) (r : Row) (p : ℚ × ℚ) (c : Criterion) : ℚ × ℚ :=
  match c.effColumn with
  | none => p
  | some col =>
      match matchCell cols r col c.effMin c.effMax with
      | none => p
      | some m => (p.1 + m * c.effWeight, p.2 + c.effWeight)

lemma calculate_criteria_match_get? (gdf : GDF) (column : String)
    (lo hi : Option ℚ) (i : ℕ) :
    (calculate_criteria_match gdf column lo hi).get? i =
      (gdf.rows.get? i).map (fun r => matchCell gdf.cols r column lo hi) := by
  by_cases h : column ∈ gdf.cols
  · simp only [calculate_criteria_match, matchCell, if_pos h, List.get?_map]
  · simp only [calculate_criteria_match, matchCell, if_neg h, List.get?_map]

lemma calculate_criteria_match_length (gdf : GDF) (column : String)
    (lo hi : Option ℚ) :
    (calculate_criteria_match gdf column lo hi).length = gdf.rows.length := by
  unfold calculate_criteria_match
  by_cases h : column ∈ gdf.cols <;> simp [h]

lemma feasStep_get? (gdf : GDF) (acc : List (ℚ × ℚ)) (c : Criterion)
    (i : ℕ) (p : ℚ × ℚ) (r : Row)
    (hacc : acc.get? i = some p) (hr : gdf.rows.get? i = some r) :
    (feasStep gdf acc c).get? i = some (rowStep gdf.cols r p c) := by
  unfold feasStep rowStep
  cases hcol : c.effColumn with
  | none => simpa using hacc
  | some col =>
      rw [List.get?_zipWith', hacc, calculate_criteria_match_get?, hr]
      cases hm : matchCell gdf.cols r col c.effMin c.effMax <;> simp [hm]

lemma foldl_feasStep_get? (gdf : GDF) (cs : List Criterion)
    (acc : List (ℚ × ℚ)) (i : ℕ) (p : ℚ × ℚ) (r : Row)
    (hacc : acc.get? i = some p) (hr : gdf.rows.get? i = some r) :
    (cs.foldl (feasStep gdf) acc).get? i =
      some (cs.foldl (rowStep gdf.cols r) p) := by
  induction cs generalizing acc p with
  | nil => simpa using hacc
  | cons c cs ih =>
      simp only [List.foldl_cons]
      exact ih (feasStep gdf acc c) (rowStep gdf.cols r p c)
        (feasStep_get? gdf acc c i p r hacc hr)

lemma rowStep_eq (cols : List String) (r : Row) (p : ℚ × ℚ) (c : Criterion) :
    rowStep cols r p c =
      (p.1 + (if critApplicable cols r c then critMatchVal r c * c.effWeight else 0),
       p.2 + (if critApplicable cols r c then c.effWeight else 0)) := by
  unfold rowStep critApplicable critMatchVal matchCell
  cases hcol : c.effColumn with
  | none => simp
  | some col =>
      by_cases hmem : col ∈ cols
      · cases hco : r.coerceNum col with
        | none => simp [hmem, hco]
        | some v => by_cases hir : inRange c.effMin c.effMax v <;>
            simp [hmem, hco, hir]
      · simp [hmem]

lemma foldl_rowStep_sums (cols : List String) (r : Row) (cs : List Criterion)
    (p : ℚ × ℚ) :
    cs.foldl (rowStep cols r) p =
      (p.1 + rowMatchSum cols r cs, p.2 + rowWeightSum cols r cs) := by
  induction cs generalizing p with
  | nil => simp [rowMatchSum, rowWeightSum]
  | cons c cs ih =>
      simp only [List.foldl_cons, ih, rowStep_eq, rowMatchSum, rowWeightSum,
        List.map_cons, List.sum_cons, Prod.mk.injEq]
      constructor <;> ring

/-- The bridge: entry `i` of `calculate_feasibility` is the weighted ratio of
row `i`'s applicable criteria, or NaN when their total weight is not
positive. -/
lemma calculate_feasibility_get? (gdf : GDF) (cs : List Criterion)
    (logic : String) (i : ℕ) (r : Row) (hr : gdf.rows.get? i = some r) :
    (calculate_feasibility gdf cs logic).get? i =
      some (if rowWeightSum gdf.cols r cs > 0
        then some (rowMatchSum gdf.cols r cs / rowWeightSum gdf.cols r cs * 100)
        else none) := by
  cases cs with
  | nil =>
      show (gdf.rows.map (fun _ => (none : Option ℚ))).get? i = _
      rw [List.get?_map, hr]
      simp [rowMatchSum, rowWeightSum]
  | cons c cs =>
      have hinit : (gdf.rows.map (fun _ => ((0 : ℚ), (0 : ℚ)))).get? i
          = some (0, 0) := by rw [List.get?_map, hr]; rfl
      show (((c :: cs).foldl (feasStep gdf)
          (gdf.rows.map (fun _ => ((0 : ℚ), (0 : ℚ))))).map
          (fun p => if p.2 > 0 then some (p.1 / p.2 * 100) else none)).get? i = _
      rw [List.get?_map, foldl_feasStep_get? gdf (c :: cs) _ i (0, 0) r hinit hr,
        foldl_rowStep_sums]
      simp

lemma calculate_feasibility_length (gdf : GDF) (cs : List Criterion)
    (logic : String) :
    (calculate_feasibility gdf cs logic).length = gdf.rows.length := by
  have hlen : ∀ (l : List Criterion) (acc : List (ℚ × ℚ)),
      acc.length = gdf.rows.length →
      (l.foldl (feasStep gdf) acc).length = gdf.rows.length := by
    intro l
    induction l with
    | nil => intro acc h; simpa using h
    | cons c l ih =>
        intro acc h
        refine ih _ ?_
        unfold feasStep
        cases c.effColumn with
        | none => simpa using h
        | some col =>
            simp [List.length_zipWith, calculate_criteria_match_length, h]
  unfold calculate_feasibility
  by_cases hcs : cs.isEmpty
  · simp [hcs]
  · rw [if_neg hcs, List.length_map]
    exact hlen cs _ (by simp)

/-! ## Claim theorems -/

/-- C2: `classify_feasibility` maps a score to a class by inclusive lower
bounds in descending precedence — ≥100 very_high, ≥75 high, ≥50
moderate_high, ≥25 moderate, ≥1 low, otherwise (including 0 and negatives)
very_low, undefined (NaN) no_data — and each class carries a fixed display
label and a fixed color token. -/
theorem classify_feasibility_spec (v : ℚ) :
    (100 ≤ v → classify_feasibility (some v) = ("very_high", "100%") ∧
      get_feasibility_color (some v) = "#1b5e20")
  ∧ (75 ≤ v → v < 100 → classify_feasibility (some v) = ("high", "75-100%") ∧
      get_feasibility_color (some v) = "#81c784")
  ∧ (50 ≤ v → v < 75 → classify_feasibility (some v) = ("moderate_high", "50-75%") ∧
      get_feasibility_color (some v) = "#c5e1a5")
  ∧ (25 ≤ v → v < 50 → classify_feasibility (some v) = ("moderate", "25-50%") ∧
      get_feasibility_color (some v) = "#ffd700")
  ∧ (1 ≤ v → v < 25 → classify_feasibility (some v) = ("low", "1-25%") ∧
      get_feasibility_color (some v) = "#ff8c00")
  ∧ (v < 1 → classify_feasibility (some v) = ("very_low", "0%") ∧
      get_feasibility_color (some v) = "#ff0000")
  ∧ (classify_feasibility none = ("no_data", "No Data") ∧
      get_feasibility_color none = "#E0E0E0") := by
  refine ⟨?_, ?_, ?_, ?_, ?_, ?_, by constructor <;> rfl⟩
  · intro h1
    have hc : classify_feasibility (some v) = ("very_high", "100%") := by
      simp only [classify_feasibility]
      rw [if_pos (by linarith : v ≥ 100)]
    exact ⟨hc, by unfold get_feasibility_color; rw [hc]; decide⟩
  · intro h1 h2
    have hc : classify_feasibility (some v) = ("high", "75-100%") := by
      simp only [classify_feasibility]
      rw [if_neg (by linarith : ¬ v ≥ 100), if_pos (by linarith : v ≥ 75)]
    exact ⟨hc, by unfold get_feasibility_color; rw [hc]; decide⟩
  · intro h1 h2
    have hc : classify_feasibility (some v) = ("moderate_high", "50-75%") := by
      simp only [classify_feasibility]
      rw [if_neg (by linarith : ¬ v ≥ 100), if_neg (by linarith : ¬ v ≥ 75),
        if_pos (by linarith : v ≥ 50)]
    exact ⟨hc, by unfold get_feasibility_color; rw [hc]; decide⟩
  · intro h1 h2
    have hc : classify_feasibility (some v) = ("moderate", "25-50%") := by
      simp only [classify_feasibility]
      rw [if_neg (by linarith : ¬ v ≥ 100), if_neg (by linarith : ¬ v ≥ 75),
        if_neg (by linarith : ¬ v ≥ 50), if_pos (by linarith : v ≥ 25)]
    exact ⟨hc, by unfold get_feasibility_color; rw [hc]; decide⟩
  · intro h1 h2
    have hc : classify_feasibility (some v) = ("low", "1-25%") := by
      simp only [classify_feasibility]
      rw [if_neg (by linarith : ¬ v ≥ 100), if_neg (by linarith : ¬ v ≥ 75),
        if_neg (by linarith : ¬ v ≥ 50), if_neg (by linarith : ¬ v ≥ 25),
        if_pos (by linarith : v ≥ 1)]
    exact ⟨hc, by unfold get_feasibility_color; rw [hc]; decide⟩
  · intro h1
    have hc : classify_feasibility (some v) = ("very_low", "0%") := by
      simp only [classify_feasibility]
      rw [if_neg (by linarith : ¬ v ≥ 100), if_neg (by linarith : ¬ v ≥ 75),
        if_neg (by linarith : ¬ v ≥ 50), if_neg (by linarith : ¬ v ≥ 25),
        if_neg (by linarith : ¬ v ≥ 1)]
    exact ⟨hc, by unfold get_feasibility_color; rw [hc]; decide⟩

/-- C7: the logic mode does not change the scores — `calculate_feasibility`
with "OR" equals it with "AND" on every table and criteria list (the
parameter is never read). -/
theorem calculate_feasibility_or_eq_and (gdf : GDF) (criteria : List Criterion) :
    calculate_feasibility gdf criteria "OR" =
      calculate_feasibility gdf criteria "AND" := rfl

/-- C3: per-criterion match at one unit — missing (NaN) when the column is
absent from the table or the unit's value does not coerce to a number; for a
numeric value `v`, the match is 1 exactly when `min ≤ v ≤ max` with both
bounds inclusive, 0 otherwise. -/
theorem calculate_criteria_match_range_spec (gdf : GDF) (column : String)
    (lo hi : Option ℚ) (i : ℕ) (r : Row) (hr : gdf.rows.get? i = some r) :
    (column ∉ gdf.cols →
      (calculate_criteria_match gdf column lo hi).get? i = some none)
  ∧ (column ∈ gdf.cols → r.coerceNum column = none →
      (calculate_criteria_match gdf column lo hi).get? i = some none)
  ∧ (∀ v : ℚ, column ∈ gdf.cols → r.coerceNum column = some v →
      ((calculate_criteria_match gdf column lo hi).get? i = some (some 1) ↔
        inRange lo hi v = true)
      ∧ (inRange lo hi v = false →
        (calculate_criteria_match gdf column lo hi).get? i = some (some 0)))
  ∧ (∀ v mn mx : ℚ, lo = some mn → hi = some mx →
      (inRange lo hi v = true ↔ mn ≤ v ∧ v ≤ mx))
  ∧ (∀ v : ℚ, lo = some v → highOk hi v = true → inRange lo hi v = true)
  ∧ (∀ v : ℚ, hi = some v → lowOk lo v = true → inRange lo hi v = true) := by
  have hget := calculate_criteria_match_get? gdf column lo hi i
  refine ⟨?_, ?_, ?_, ?_, ?_, ?_⟩
  · intro hmem
    rw [hget, hr]
    simp [matchCell, hmem]
  · intro hmem hco
    rw [hget, hr]
    simp [matchCell, hmem, hco]
  · intro v hmem hco
    rw [hget, hr]
    simp only [matchCell, if_pos hmem, hco, Option.map_some']
    constructor
    · constructor
      · intro h
        by_cases hir : inRange lo hi v
        · exact hir
        · rw [if_neg hir] at h
          exact absurd (Option.some.inj (Option.some.inj h)) (by norm_num)
      · intro h
        rw [if_pos h]
    · intro h
      rw [h]
      simp
  · intro v mn mx hlo hhi
    subst hlo; subst hhi
    simp [inRange, lowOk, highOk]
  · intro v hlo hhigh
    subst hlo
    simp [inRange, lowOk, hhigh]
  · intro v hhi hlow
    subst hhi
    simp [inRange, highOk, hlow]

/-- C3 witness: a one-row table whose value 5 sits exactly on the lower
bound of the range [5, 10]; the match is 1 (inclusive bounds). -/
theorem calculate_criteria_match_range_spec_witness :
    (calculate_criteria_match ⟨["x"], [[("x", CellVal.num 5)]]⟩ "x"
      (some 5) (some 10)).get? 0 = some (some 1) := by
  have h := calculate_criteria_match_range_spec ⟨["x"], [[("x", CellVal.num 5)]]⟩
    "x" (some 5) (some 10) 0 [("x", CellVal.num 5)] rfl
  exact ((h.2.2.1 5 (by decide) rfl).1).mpr (by decide)

/-- C1: per-unit score — when at least one criterion is applicable to the
unit (its column exists and the unit's value there coerces to a number,
weights positive), the score is
`100 × (Σ weight·match over applicable criteria) / (Σ weight over applicable
criteria)`; when no criterion is applicable (including an empty criteria
list), the score is NaN, never 0. -/
theorem calculate_feasibility_score_spec (gdf : GDF) (criteria : List Criterion)
    (logic : String) (i : ℕ) (r : Row)
    (hr : gdf.rows.get? i = some r)
    (hw : ∀ c ∈ criteria, 0 < c.effWeight) :
    ((∃ c ∈ criteria, critApplicable gdf.cols r c = true) →
      (calculate_feasibility gdf criteria logic).get? i =
        some (some (100 * rowMatchSum gdf.cols r criteria /
          rowWeightSum gdf.cols r criteria)))
  ∧ ((∀ c ∈ criteria, critApplicable gdf.cols r c = false) →
      (calculate_feasibility gdf criteria logic).get? i = some none) := by
  have hget := calculate_feasibility_get? gdf criteria logic i r hr
  constructor
  · rintro ⟨c, hc, happ⟩
    have hnn : ∀ x ∈ criteria.map
        (fun c => if critApplicable gdf.cols r c then c.effWeight else 0),
        0 ≤ x := by
      intro x hx
      rcases List.mem_map.1 hx with ⟨c', hc', rfl⟩
      by_cases h' : critApplicable gdf.cols r c'
      · simpa [h'] using le_of_lt (hw c' hc')
      · simp [h']
    have hmem : c.effWeight ∈ criteria.map
        (fun c => if critApplicable gdf.cols r c then c.effWeight else 0) :=
      List.mem_map.2 ⟨c, hc, by simp [happ]⟩
    have hpos : 0 < rowWeightSum gdf.cols r criteria :=
      lt_of_lt_of_le (hw c hc) (List.single_le_sum hnn _ hmem)
    rw [hget, if_pos hpos]
    congr 2
    ring
  · intro hall
    have hzero : rowWeightSum gdf.cols r criteria = 0 := by
      apply List.sum_eq_zero
      intro x hx
      rcases List.mem_map.1 hx with ⟨c', hc', rfl⟩
      simp [hall c' hc']
    rw [hget, hzero]
    simp

/-- C1 witness: two criteria of weights 1 and 3 on a one-row table matching
only the weight-3 criterion give the score 100 × 3 / 4 = 75. -/
theorem calculate_feasibility_score_spec_witness :
    (calculate_feasibility ⟨["a", "b"], [[("a", CellVal.num 10), ("b", CellVal.num 5)]]⟩
      [{ column := some "a", min_val := some (some 0), max_val := some (some 1),
          weight := some 1 },
       { column := some "b", min_val := some (some 0), max_val := some (some 10),
          weight := some 3 }] "AND").get? 0 = some (some 75) := by
  have h := (calculate_feasibility_score_spec
    ⟨["a", "b"], [[("a", CellVal.num 10), ("b", CellVal.num 5)]]⟩
    [{ column := some "a", min_val := some (some 0), max_val := some (some 1),
        weight := some 1 },
     { column := some "b", min_val := some (some 0), max_val := some (some 10),
        weight := some 3 }] "AND" 0 [("a", CellVal.num 10), ("b", CellVal.num 5)]
    rfl (by decide)).1 (by decide)
  rw [h]
  simp [rowMatchSum, rowWeightSum, critApplicable, critMatchVal,
    Criterion.effColumn, Criterion.effWeight, Criterion.effMin, Criterion.effMax,
    Row.coerceNum, inRange, lowOk, highOk, List.lookup]
  norm_num

lemma zipWith_none_id (acc : List (ℚ × ℚ)) (l : List Row) (w : ℚ)
    (h : acc.length ≤ l.length) :
    List.zipWith (fun p mv =>
        match mv with
        | none => p
        | some m => (p.1 + m * w, p.2 + w))
      acc (l.map (fun _ => (none : Option ℚ))) = acc := by
  induction acc generalizing l with
  | nil => simp
  | cons p acc ih =>
      cases l with
      | nil => simp at h
      | cons r l =>
          simp only [List.map_cons, List.zipWith_cons_cons]
          exact congrArg _ (ih l (by simpa using h))

/-- C4: scoring never rejects a malformed criterion — the score series always
has one entry per unit; a null or absent lower bound acts as `-inf` (its
bound test accepts every value) and a null or absent upper bound as `+inf`;
and a criterion whose column is not in the table changes nothing: dropping it
gives the identical score series. -/
theorem calculate_feasibility_lenient_spec (gdf : GDF) (cs : List Criterion)
    (logic : String) :
    (calculate_feasibility gdf cs logic).length = gdf.rows.length
  ∧ (∀ c : Criterion, c.min_val = some none ∨
      (c.min_val = none ∧ c.range_min = none) →
      c.effMin = none ∧ ∀ v : ℚ, lowOk c.effMin v = true)
  ∧ (∀ c : Criterion, c.max_val = some none ∨
      (c.max_val = none ∧ c.range_max = none) →
      c.effMax = none ∧ ∀ v : ℚ, highOk c.effMax v = true)
  ∧ (∀ (c : Criterion) (col : String), c.effColumn = some col →
      col ∉ gdf.cols →
      calculate_feasibility gdf (c :: cs) logic =
        calculate_feasibility gdf cs logic) := by
  refine ⟨calculate_feasibility_length gdf cs logic, ?_, ?_, ?_⟩
  · rintro c (h | ⟨h1, h2⟩)
    · have : c.effMin = none := by simp [Criterion.effMin, h]
      exact ⟨this, fun v => by simp [this, lowOk]⟩
    · have : c.effMin = none := by simp [Criterion.effMin, h1, h2]
      exact ⟨this, fun v => by simp [this, lowOk]⟩
  · rintro c (h | ⟨h1, h2⟩)
    · have : c.effMax = none := by simp [Criterion.effMax, h]
      exact ⟨this, fun v => by simp [this, highOk]⟩
    · have : c.effMax = none := by simp [Criterion.effMax, h1, h2]
      exact ⟨this, fun v => by simp [this, highOk]⟩
  · intro c col hcol hmem
    have hstep : ∀ acc : List (ℚ × ℚ), acc.length ≤ gdf.rows.length →
        feasStep gdf acc c = acc := by
      intro acc hlen
      simp only [feasStep, hcol, calculate_criteria_match, if_neg hmem]
      exact zipWith_none_id acc gdf.rows c.effWeight hlen
    cases cs with
    | nil =>
        show ((([c].foldl (feasStep gdf)
            (gdf.rows.map (fun _ => ((0 : ℚ), (0 : ℚ))))).map
            (fun p => if p.2 > 0 then some (p.1 / p.2 * 100) else none))) = _
        rw [List.foldl_cons, List.foldl_nil, hstep _ (by simp), List.map_map]
        show _ = gdf.rows.map (fun _ => none)
        apply List.map_congr_left
        intro r _
        simp
    | cons c' cs' =>
        show ((((c :: c' :: cs').foldl (feasStep gdf)
            (gdf.rows.map (fun _ => ((0 : ℚ), (0 : ℚ))))).map
            (fun p => if p.2 > 0 then some (p.1 / p.2 * 100) else none))) = _
        rw [List.foldl_cons, hstep _ (by simp)]
        rfl

lemma sum_map_count_cons (a : String) (l ks : List String) :
    (ks.map (fun x => (a :: l).count x)).sum =
      (ks.map (fun x => l.count x)).sum + ks.count a := by
  induction ks with
  | nil => simp
  | cons k ks ih =>
      simp only [List.map_cons, List.sum_cons]
      rw [ih, List.count_cons, List.count_cons]
      simp only [beq_iff_eq]
      by_cases h : a = k
      · subst h
        simp
        omega
      · rw [if_neg h, if_neg (fun hh => h hh.symm)]
        omega

lemma sum_map_count_dedup (l : List String) :
    (l.dedup.map (fun x => l.count x)).sum = l.length := by
  induction l with
  | nil => simp
  | cons a l ih =>
      by_cases h : a ∈ l
      · rw [List.dedup_cons_of_mem h, sum_map_count_cons, ih, List.count_dedup]
        simp [h]
      · rw [List.dedup_cons_of_not_mem h, List.map_cons, List.sum_cons,
          sum_map_count_cons, ih, List.count_dedup, List.count_cons]
        simp [h, List.count_eq_zero.2 h]
        omega

lemma distribution_has_all_labels (g : ScoredGDF) :
    ∀ l ∈ all_labels, ∃ n : ℕ, (l, n) ∈ get_feasibility_distribution g := by
  intro l hl
  refine ⟨(g.rows.map (fun r => r.feasibility_label)).count l, ?_⟩
  unfold get_feasibility_distribution
  apply List.mem_map.2
  refine ⟨l, ?_, rfl⟩
  by_cases hc : (g.rows.map (fun r => r.feasibility_label)).dedup.contains l
  · exact List.mem_append.2 (Or.inl (List.elem_iff.1 hc))
  · refine List.mem_append.2 (Or.inr (List.mem_filter.2 ⟨hl, ?_⟩))
    simpa using hc

lemma distribution_counts_sum (g : ScoredGDF) :
    ((get_feasibility_distribution g).map Prod.snd).sum = g.rows.length := by
  unfold get_feasibility_distribution
  rw [List.map_map]
  have hsnd : (Prod.snd ∘ fun l =>
      (l, (g.rows.map (fun r => r.feasibility_label)).count l)) =
      fun l => (g.rows.map (fun r => r.feasibility_label)).count l := rfl
  rw [hsnd, List.map_append, List.sum_append, sum_map_count_dedup]
  have hzero : ((all_labels.filter (fun l =>
      !(g.rows.map (fun r => r.feasibility_label)).dedup.contains l)).map
      (fun l => (g.rows.map (fun r => r.feasibility_label)).count l)).sum = 0 := by
    apply List.sum_eq_zero
    intro x hx
    rcases List.mem_map.1 hx with ⟨l, hlmem, rfl⟩
    have hnc := (List.mem_filter.1 hlmem).2
    apply List.count_eq_zero.2
    intro hin
    have hc2 : ((g.rows.map (fun r => r.feasibility_label)).dedup).contains l
        = true := List.elem_iff.2 (List.mem_dedup.2 hin)
    rw [hc2] at hnc
    simp at hnc
  rw [hzero, List.length_map]
  simp

/-- C6: on every scored table the distribution contains all 7 bucket labels
(counts are naturals, hence non-negative integers) and the counts sum to the
number of units in the table. -/
theorem feasibility_distribution_invariant (gdf : GDF) (cs : List Criterion)
    (logic : String) :
    (∀ l ∈ all_labels, ∃ n : ℕ,
      (l, n) ∈ get_feasibility_distribution (add_feasibility_to_gdf gdf cs logic))
  ∧ ((get_feasibility_distribution (add_feasibility_to_gdf gdf cs logic)).map
      Prod.snd).sum = (add_feasibility_to_gdf gdf cs logic).rows.length
  ∧ (add_feasibility_to_gdf gdf cs logic).rows.length = gdf.rows.length := by
  refine ⟨distribution_has_all_labels _, distribution_counts_sum _, ?_⟩
  unfold add_feasibility_to_gdf
  simp [calculate_feasibility_length]

/-- C10: when no unit has a defined score, the statistics still report
with-data 0 and the fixed fallbacks mean = 0, median = 0, min = 0 and
max = 100 — defined values, not null and not an error. -/
theorem get_feasibility_stats_empty_fallback (g : ScoredGDF)
    (h : g.rows.filterMap (fun r => r.feasibility) = []) :
    (get_feasibility_stats g).lookup "blocks_with_data" = some 0
  ∧ (get_feasibility_stats g).lookup "mean" = some 0
  ∧ (get_feasibility_stats g).lookup "median" = some 0
  ∧ (get_feasibility_stats g).lookup "min" = some 0
  ∧ (get_feasibility_stats g).lookup "max" = some 100 := by
  unfold get_feasibility_stats
  rw [h]
  simp [List.lookup]

/-- C10 witness: a one-row table whose single unit has no score. -/
theorem get_feasibility_stats_empty_fallback_witness :
    (get_feasibility_stats ⟨["feasibility"],
      [{ cells := [], feasibility := none, feasibility_class := "no_data",
          feasibility_label := "No Data",
          feasibility_color := "#E0E0E0" }]⟩).lookup "max" = some 100 :=
  (get_feasibility_stats_empty_fallback ⟨["feasibility"],
    [{ cells := [], feasibility := none, feasibility_class := "no_data",
        feasibility_label := "No Data",
        feasibility_color := "#E0E0E0" }]⟩ rfl).2.2.2.2

/-- C9: loading the required block shapefile raises exactly when its backing
file does not exist, while the optional GP shapefile and GP indicator data
return the explicit unavailable value `None` (not an exception) exactly when
their backing files do not exist. -/
theorem loaders_missing_file_spec (env : DataEnv) :
    ((∃ e, load_shapefile env = Except.error e) ↔ env.shapefile_exists = false)
  ∧ (load_gp_shapefile env = none ↔ env.gp_shapefile_exists = false)
  ∧ (load_gp_data env = none ↔ env.gp_data_exists = false) := by
  refine ⟨?_, ?_, ?_⟩
  · cases h : env.shapefile_exists <;> simp [load_shapefile, h]
  · cases h : env.gp_shapefile_exists <;> simp [load_gp_shapefile, h]
  · cases h : env.gp_data_exists <;> simp [load_gp_data, h]

lemma calculate_and_get_geojson_eq (gdf : GDF) (cs : List Criterion)
    (logic : String) (district : Option String) :
    calculate_and_get_geojson gdf cs logic district =
      match districtFilter (add_feasibility_to_gdf gdf cs logic) district with
      | Except.error e => Except.error e
      | Except.ok g =>
          Except.ok (GeoResult.mk (add_feasibility_to_gdf gdf cs logic)
            (mkStatistics g)) := rfl

lemma mkStatistics_keys (g : ScoredGDF) :
    (mkStatistics g).map Prod.fst =
      ["total_blocks", "blocks_with_data", "blocks_no_data", "mean", "median",
       "min", "max", "high_feasibility", "low_feasibility", "distribution"] := rfl

lemma mkStatistics_lookup_total (g : ScoredGDF) :
    (mkStatistics g).lookup "total_blocks" =
      some (StatVal.num (g.rows.length : ℚ)) := rfl

lemma mkStatistics_lookup_high (g : ScoredGDF) :
    (mkStatistics g).lookup "high_feasibility" =
      some (StatVal.num (((g.rows.filterMap (fun r => r.feasibility)).filter
        (fun v => v ≥ 75)).length : ℚ)) := rfl

lemma mkStatistics_lookup_low (g : ScoredGDF) :
    (mkStatistics g).lookup "low_feasibility" =
      some (StatVal.num (((g.rows.filterMap (fun r => r.feasibility)).filter
        (fun v => v < 25)).length : ℚ)) := rfl

lemma mkStatistics_lookup_distribution (g : ScoredGDF) :
    (mkStatistics g).lookup "distribution" =
      some (StatVal.dist (get_feasibility_distribution g)) := rfl

/-- C5 counterexample: on a concrete one-unit table the statistics object's
keys are `total_blocks, blocks_with_data, blocks_no_data, mean, median, min,
max, high_feasibility, low_feasibility, distribution` — not the claimed
`total, with_data, without_data, …, high_count, low_count, distribution`. -/
theorem statistics_keys_counterexample :
    ((calculate_and_get_geojson ⟨["AD"], [[("AD", CellVal.num 40)]]⟩ [] "AND"
        none).map (fun res => res.statistics.map Prod.fst) =
      Except.ok ["total_blocks", "blocks_with_data", "blocks_no_data", "mean",
        "median", "min", "max", "high_feasibility", "low_feasibility",
        "distribution"])
  ∧ ["total_blocks", "blocks_with_data", "blocks_no_data", "mean", "median",
      "min", "max", "high_feasibility", "low_feasibility", "distribution"] ≠
     ["total", "with_data", "without_data", "mean", "median", "min", "max",
      "high_count", "low_count", "distribution"] := by
  exact ⟨rfl, by decide⟩

/-- C5 (amended): the statistics object returned to collaborators has exactly
the keys `total_blocks, blocks_with_data, blocks_no_data, mean, median, min,
max, high_feasibility, low_feasibility, distribution`, where
`high_feasibility` counts units with score ≥ 75, `low_feasibility` counts
units with score < 25, and `distribution` holds a count for each of the 7
bucket labels. -/
theorem statistics_object_spec (gdf : GDF) (cs : List Criterion)
    (logic : String) (district : Option String) (res : GeoResult)
    (h : calculate_and_get_geojson gdf cs logic district = Except.ok res) :
    res.statistics.map Prod.fst =
      ["total_blocks", "blocks_with_data", "blocks_no_data", "mean", "median",
       "min", "max", "high_feasibility", "low_feasibility", "distribution"]
  ∧ ∃ g : ScoredGDF,
      res.statistics = mkStatistics g
      ∧ res.statistics.lookup "high_feasibility" =
          some (StatVal.num (((g.rows.filterMap (fun r => r.feasibility)).filter
            (fun v => v ≥ 75)).length : ℚ))
      ∧ res.statistics.lookup "low_feasibility" =
          some (StatVal.num (((g.rows.filterMap (fun r => r.feasibility)).filter
            (fun v => v < 25)).length : ℚ))
      ∧ res.statistics.lookup "distribution" =
          some (StatVal.dist (get_feasibility_distribution g))
      ∧ ∀ l ∈ all_labels, ∃ n : ℕ, (l, n) ∈ get_feasibility_distribution g := by
  rw [calculate_and_get_geojson_eq] at h
  cases hd : districtFilter (add_feasibility_to_gdf gdf cs logic) district with
  | error e => rw [hd] at h; exact absurd h (by simp)
  | ok g =>
      rw [hd] at h
      have hres : res = GeoResult.mk (add_feasibility_to_gdf gdf cs logic)
          (mkStatistics g) := (Except.ok.inj h).symm
      subst hres
      exact ⟨mkStatistics_keys g, g, rfl, mkStatistics_lookup_high g,
        mkStatistics_lookup_low g, mkStatistics_lookup_distribution g,
        distribution_has_all_labels g⟩

/-- C5 witness: the concrete one-unit table again, with the key list the
amended claim names. -/
theorem statistics_object_spec_witness :
    ∃ res : GeoResult,
      calculate_and_get_geojson ⟨["AD"], [[("AD", CellVal.num 40)]]⟩ [] "AND"
        none = Except.ok res
      ∧ res.statistics.map Prod.fst =
        ["total_blocks", "blocks_with_data", "blocks_no_data", "mean",
         "median", "min", "max", "high_feasibility", "low_feasibility",
         "distribution"] := by
  have h : calculate_and_get_geojson ⟨["AD"], [[("AD", CellVal.num 40)]]⟩ []
      "AND" none = Except.ok
        (GeoResult.mk
          (add_feasibility_to_gdf ⟨["AD"], [[("AD", CellVal.num 40)]]⟩ [] "AND")
          (mkStatistics
            (add_feasibility_to_gdf ⟨["AD"], [[("AD", CellVal.num 40)]]⟩ [] "AND"))) := rfl
  exact ⟨_, h, (statistics_object_spec _ [] "AND" none _ h).1⟩

lemma districtFilter_not_truthy (g : ScoredGDF) (district : Option String)
    (h : truthyDistrict district = false) :
    districtFilter g district = Except.ok g := by
  simp [districtFilter, h]

lemma districtFilter_name_hit (g : ScoredGDF) (d : String)
    (ht : truthyDistrict (some d) = true) (hmem : "Dist_Name" ∈ g.cols)
    (hne : (g.filterRows (fun r => rowMatchesName r d)).rows ≠ []) :
    districtFilter g (some d) =
      Except.ok (g.filterRows (fun r => rowMatchesName r d)) := by
  have hlen : ¬ ((g.filterRows (fun r => rowMatchesName r d)).rows.length = 0 ∧
      "DISTRICT_I" ∈ g.cols) := by
    rintro ⟨h0, _⟩
    exact hne (List.length_eq_zero.1 h0)
  simp only [districtFilter, ht, if_true, Option.getD_some, if_pos hmem,
    if_neg hlen]

lemma districtFilter_name_miss_no_id (g : ScoredGDF) (d : String)
    (ht : truthyDistrict (some d) = true) (hmem : "Dist_Name" ∈ g.cols)
    (hid : "DISTRICT_I" ∉ g.cols) :
    districtFilter g (some d) =
      Except.ok (g.filterRows (fun r => rowMatchesName r d)) := by
  have hlen : ¬ ((g.filterRows (fun r => rowMatchesName r d)).rows.length = 0 ∧
      "DISTRICT_I" ∈ g.cols) := fun hc => hid hc.2
  simp only [districtFilter, ht, if_true, Option.getD_some, if_pos hmem,
    if_neg hlen]

lemma districtFilter_id_fallback (g : ScoredGDF) (d : String)
    (ht : truthyDistrict (some d) = true) (hmem : "Dist_Name" ∈ g.cols)
    (h0 : (g.filterRows (fun r => rowMatchesName r d)).rows = [])
    (hid : "DISTRICT_I" ∈ g.cols) :
    districtFilter g (some d) =
      Except.ok (g.filterRows (fun r => rowMatchesId r d)) := by
  have hlen : (g.filterRows (fun r => rowMatchesName r d)).rows.length = 0 ∧
      "DISTRICT_I" ∈ g.cols := ⟨by rw [h0]; rfl, hid⟩
  simp only [districtFilter, ht, if_true, Option.getD_some, if_pos hmem,
    if_pos hlen]

/-- C8: the geojson component of `calculate_and_get_geojson` is always the
full scored collection, whatever the district scope; the scope filters only
the statistics — first by the parent-region name, then (when no unit matches
by name) by string equality against the numeric region identifier — and when
neither matches any unit the statistics are computed over zero units
(`total_blocks` = 0) with no error raised. -/
theorem geojson_scope_spec (gdf : GDF) (cs : List Criterion) (logic : String)
    (district : Option String) :
    (∀ res, calculate_and_get_geojson gdf cs logic district = Except.ok res →
      res.geojson = add_feasibility_to_gdf gdf cs logic)
  ∧ (truthyDistrict district = false →
      calculate_and_get_geojson gdf cs logic district = Except.ok
        (GeoResult.mk (add_feasibility_to_gdf gdf cs logic)
          (mkStatistics (add_feasibility_to_gdf gdf cs logic))))
  ∧ (∀ d, district = some d → truthyDistrict district = true →
      "Dist_Name" ∈ (add_feasibility_to_gdf gdf cs logic).cols →
      (((add_feasibility_to_gdf gdf cs logic).filterRows
          (fun r => rowMatchesName r d)).rows ≠ [] →
        calculate_and_get_geojson gdf cs logic district = Except.ok
          (GeoResult.mk (add_feasibility_to_gdf gdf cs logic)
            (mkStatistics ((add_feasibility_to_gdf gdf cs logic).filterRows
              (fun r => rowMatchesName r d)))))
      ∧ (((add_feasibility_to_gdf gdf cs logic).filterRows
          (fun r => rowMatchesName r d)).rows = [] →
         "DISTRICT_I" ∈ (add_feasibility_to_gdf gdf cs logic).cols →
        calculate_and_get_geojson gdf cs logic district = Except.ok
          (GeoResult.mk (add_feasibility_to_gdf gdf cs logic)
            (mkStatistics ((add_feasibility_to_gdf gdf cs logic).filterRows
              (fun r => rowMatchesId r d)))))
      ∧ (((add_feasibility_to_gdf gdf cs logic).filterRows
          (fun r => rowMatchesName r d)).rows = [] →
         ((add_feasibility_to_gdf gdf cs logic).filterRows
          (fun r => rowMatchesId r d)).rows = [] →
        ∃ res, calculate_and_get_geojson gdf cs logic district = Except.ok res
          ∧ res.statistics.lookup "total_blocks" = some (StatVal.num 0))) := by
  refine ⟨?_, ?_, ?_⟩
  · intro res h
    rw [calculate_and_get_geojson_eq] at h
    cases hd : districtFilter (add_feasibility_to_gdf gdf cs logic) district with
    | error e => rw [hd] at h; exact absurd h (by simp)
    | ok g =>
        rw [hd] at h
        rw [← Except.ok.inj h]
  · intro ht
    rw [calculate_and_get_geojson_eq,
      districtFilter_not_truthy _ _ ht]
  · intro d hd ht hmem
    subst hd
    refine ⟨?_, ?_, ?_⟩
    · intro hne
      rw [calculate_and_get_geojson_eq,
        districtFilter_name_hit _ _ ht hmem hne]
    · intro h0 hid
      rw [calculate_and_get_geojson_eq,
        districtFilter_id_fallback _ _ ht hmem h0 hid]
    · intro h0 hidempty
      by_cases hid : "DISTRICT_I" ∈ (add_feasibility_to_gdf gdf cs logic).cols
      · refine ⟨_, by
          rw [calculate_and_get_geojson_eq,
            districtFilter_id_fallback _ _ ht hmem h0 hid], ?_⟩
        rw [mkStatistics_lookup_total, hidempty]
        simp
      · refine ⟨_, by
          rw [calculate_and_get_geojson_eq,
            districtFilter_name_miss_no_id _ _ ht hmem hid], ?_⟩
        rw [mkStatistics_lookup_total, h0]
        simp
